import Mathlib

/-!
Verification of the byte-stream transport core in
`src/ldlidar_driver/src/serial_interface_linux.cpp` (class
`SerialInterfaceLinux`, namespace `ldlidar`).

The C++ code is shallowly embedded: each member function becomes a Lean
function over an explicit state, and every interaction with the operating
system (socket creation, connect, pselect, read, write, close, thread join)
is recorded in an event trace and/or driven by an explicit oracle argument
standing for the OS's response.  Out-parameters passed by pointer in C++
become an explicit before-value argument and an after-value result, so that
"the out-parameter is untouched" is expressible.
-/

set_option autoImplicit false

namespace LdLidar

/-- OS-level actions the embedded functions can perform, recorded in order. -/
inductive IoEvent where
  /-- `socket(AF_INET, SOCK_STREAM, 0)` -/
  | socketCreate
  /-- `connect(com_handle_, ...)` -/
  | connectCall
  /-- the single bounded `pselect` wait inside ReadFromIO -/
  | pselectWait
  /-- `read(com_handle_, rx_buf, rx_buf_len)` -/
  | readCall
  /-- `write(com_handle_, tx_buf, tx_buf_len)` -/
  | writeCall
  /-- `close(com_handle_)` -/
  | closeHandle
  /-- `rx_thread_->join()` followed by `delete rx_thread_` -/
  | joinThread
  deriving DecidableEq, Repr

/-- The fixed wait bound of ReadFromIO, in nanoseconds:
`static timespec timeout = \x7b0, (long)(100 * 1e6)\x7d;` i.e. 0 s plus
100 * 10^6 ns = 100 ms. -/
def readTimeoutNs : Nat := 100 * 1000000

/-- Modelled from the spec: `IsOpened()` is declared in the class header,
which is not part of the sources; per the spec's TransportState it reports
the `isOpen` flag (`is_cmd_opened_`).  The flag's current value is passed in
explicitly. -/
def IsOpened (isOpen : Bool) : Bool := isOpen

/-! ## std::string and std::stoi helpers used by Open -/

/-- `std::string::find(char)`: index of the first occurrence, `none` for
`npos`.  When it returns `some pos`, `pos` is the index of an existing
character, hence strictly below the length. -/
def strFind (c : Char) : List Char → Option Nat
  | [] => none
  | a :: rest => if a = c then some 0 else (strFind c rest).map (· + 1)

/-- Characters accepted by `isspace` in the default locale, skipped by
`std::stoi` before the number. -/
def isSpaceChar (c : Char) : Bool :=
  c = ' ' || c = '\t' || c = '\n' || c = '\r' || c = '\x0b' || c = '\x0c'

/-- `std::stoi` parses successfully iff, after optional leading whitespace
and an optional single sign, the next character exists and is a decimal
digit; otherwise it throws `std::invalid_argument`.  (The `std::out_of_range`
throw on overflow is not modelled; no claim depends on the parsed value,
only on whether the call throws on an empty or non-numeric port.) -/
def stoiParses (s : List Char) : Bool :=
  let s1 := s.dropWhile isSpaceChar
  let s2 := match s1 with
    | c :: rest => if c = '+' || c = '-' then rest else c :: rest
    | [] => []
  match s2 with
  | c :: _ => c.isDigit
  | [] => false

/-! ## Open, network branch -/

/-- Outcome of the network branch of `SerialInterfaceLinux::Open`. -/
inductive OpenNetOutcome where
  /-- returned `false` at the address-validation check, before any OS call -/
  | malformed
  /-- `std::stoi(port)` threw an uncaught exception after the socket was
  created (the function neither returns nor cleans up) -/
  | stoiThrow
  /-- `connect` failed and the function returned `false` -/
  | connectFailed
  /-- the branch completed: socket connected, worker started, open -/
  | opened
  deriving DecidableEq, Repr

/-- The scheme `port_name.find("tcp://") == 0` tests for. -/
def tcpScheme : List Char := ['t', 'c', 'p', ':', '/', '/']

/-- The network branch of `SerialInterfaceLinux::Open` (lines 41-73).
Returns `none` when the descriptor does not start with `tcp://` (the serial
branch is taken instead; no claim concerns it).  Otherwise returns the
outcome together with the ordered trace of OS resource events.  `connectOk`
is the OS oracle for the `connect` call.  Notes kept faithful to the source:
the return value of `inet_pton` on the host substring is ignored (an
unparsable or empty host leaves `sin_addr` zeroed and the branch continues),
`std::stoi(port)` runs after `socket()` has already stored a descriptor in
`com_handle_`, and the `connect`-failure return performs no `close`. -/
def OpenNet (port_name : List Char) (connectOk : Bool) :
    Option (OpenNetOutcome × List IoEvent) :=
  if port_name.take 6 = tcpScheme then
    let ip_port := port_name.drop 6
    match strFind ':' ip_port with
    | none => some (.malformed, [])
    | some pos =>
      if pos = ip_port.length then
        some (.malformed, [])
      else
        let port := ip_port.drop (pos + 1)
        if stoiParses port then
          if connectOk then
            some (.opened, [.socketCreate, .connectCall])
          else
            some (.connectFailed, [.socketCreate, .connectCall])
        else
          some (.stoiThrow, [.socketCreate])
  else none

/-! ## ReadFromIO -/

/-- OS oracle outcome of the `pselect` wait. -/
inductive PselectResult where
  /-- `pselect` returned a negative value; `eintr` tells whether `errno`
  was `EINTR` -/
  | perr (eintr : Bool)
  /-- `pselect` returned 0: the 100 ms bound elapsed with no ready handle -/
  | timeout
  /-- `pselect` returned positive: the single watched handle is readable -/
  | ready
  deriving DecidableEq, Repr

/-- OS oracle for one ReadFromIO call. -/
structure ReadOracle where
  /-- result of the `pselect` wait -/
  psel : PselectResult
  /-- whether `FD_ISSET(com_handle_, &read_fds)` still holds after a failed
  `pselect`: POSIX leaves the set's contents unspecified on error (Linux
  leaves them unmodified, i.e. still set), so it is an explicit input -/
  fdSetAfterErr : Bool
  /-- `read` result: `some bs` means the call succeeded and deposited the
  bytes `bs` in the buffer (returning `bs.length`); `none` means it
  returned -1 -/
  readResult : Option (List Nat)
  deriving DecidableEq, Repr

/-- Result of one ReadFromIO call. -/
structure ReadOutcome where
  /-- the Bool return value -/
  ok : Bool
  /-- value of `*rx_len` after the call (`rxLen0` when untouched) -/
  rxLen : Nat
  /-- bytes deposited in the caller's buffer by a successful `read`
  (empty when no read succeeded; untouched garbage is not modelled) -/
  buf : List Nat
  /-- ordered trace of OS calls performed -/
  events : List IoEvent
  deriving DecidableEq, Repr

/-- `SerialInterfaceLinux::ReadFromIO` (lines 165-192), for a caller that
passes a non-null `rx_len` holding `rxLen0`.  Faithful control flow: when
`pselect` fails with `errno == EINTR` the function returns `false` at once;
when it fails with any other `errno` there is no return statement — control
falls through to the `FD_ISSET` test on the now-unspecified set; when it
times out the function returns `false`; when the handle is ready, exactly
one `read` is performed, `*rx_len` is assigned only when `read` did not
return -1, and the outcome is `len == -1 ? false : true`. -/
def ReadFromIo (isOpen : Bool) (o : ReadOracle) (rxLen0 : Nat) : ReadOutcome :=
  if IsOpened isOpen then
    match o.psel with
    | .perr eintr =>
      if eintr then
        ReadOutcome.mk false rxLen0 [] [.pselectWait]
      else if o.fdSetAfterErr then
        match o.readResult with
        | some bs => ReadOutcome.mk true bs.length bs [.pselectWait, .readCall]
        | none => ReadOutcome.mk false rxLen0 [] [.pselectWait, .readCall]
      else
        ReadOutcome.mk false rxLen0 [] [.pselectWait]
    | .timeout => ReadOutcome.mk false rxLen0 [] [.pselectWait]
    | .ready =>
      match o.readResult with
      | some bs => ReadOutcome.mk true bs.length bs [.pselectWait, .readCall]
      | none => ReadOutcome.mk false rxLen0 [] [.pselectWait, .readCall]
  else
    ReadOutcome.mk false rxLen0 [] []

/-! ## WriteToIo -/

/-- `SerialInterfaceLinux::WriteToIo` (lines 194-205), for a caller passing
a non-null `tx_len` holding `txLen0`.  `writeRes` is the OS oracle for the
single `write` call: `some n` means the OS accepted `n` bytes, `none` means
`write` returned -1.  Result: return value, `*tx_len` after the call, and
the OS event trace. -/
def WriteToIo (isOpen : Bool) (writeRes : Option Nat) (txLen0 : Nat) :
    Bool × Nat × List IoEvent :=
  if IsOpened isOpen then
    match writeRes with
    | some n => (true, n, [.writeCall])
    | none => (false, txLen0, [.writeCall])
  else
    (false, txLen0, [])

/-! ## Close -/

/-- The fields of `SerialInterfaceLinux` that `Close` reads or writes.
`rx_thread` models whether `rx_thread_` is a live (joinable) thread object;
`rx_count` is the byte counter (modelled unbounded, its machine width lives
in the missing header and no claim depends on wraparound). -/
structure SerialState where
  com_handle : Int
  is_cmd_opened : Bool
  rx_thread_exit_flag : Bool
  rx_thread : Bool
  rx_count : Nat
  deriving DecidableEq, Repr

/-- `SerialInterfaceLinux::Close` (lines 142-163): early `true` return when
not open; otherwise set the exit flag, close and invalidate the handle when
it is valid, join and delete the worker when present, clear the open flag,
return `true`. -/
def Close (s : SerialState) : Bool × SerialState × List IoEvent :=
  if s.is_cmd_opened = false then
    (true, s, [])
  else
    let s1 : SerialState := { s with rx_thread_exit_flag := true }
    let p2 : SerialState × List IoEvent :=
      if s1.com_handle ≠ -1 then
        ({ s1 with com_handle := -1 }, [IoEvent.closeHandle])
      else
        (s1, [])
    let p3 : SerialState × List IoEvent :=
      if p2.1.rx_thread then
        ({ p2.1 with rx_thread := false }, p2.2 ++ [IoEvent.joinThread])
      else
        (p2.1, p2.2)
    (true, { p3.1 with is_cmd_opened := false }, p3.2)

/-! ## Receiver loop body -/

/-- The observable per-iteration state of the receiver loop: the byte
counter `rx_count_` and the log of callback invocations, each entry being
the bytes handed to `read_callback_` (whose count argument is the entry's
length). -/
structure RxState where
  rx_count : Nat
  callbackLog : List (List Nat)
  deriving DecidableEq, Repr

/-- One iteration of the `while` loop of `SerialInterfaceLinux::RxThreadProc`
(lines 210-219): `readed` starts at 0, one ReadFromIO call is made, and only
when it returned `true` with a non-zero `readed` is the counter incremented
by `readed` and the callback (when registered) invoked with the buffer and
`readed` — synchronously, within the same iteration, before the next one. -/
def RxIteration (hasCallback : Bool) (isOpen : Bool) (o : ReadOracle)
    (st : RxState) : RxState :=
  let r := ReadFromIo isOpen o 0
  if r.ok = true ∧ r.rxLen ≠ 0 then
    { rx_count := st.rx_count + r.rxLen,
      callbackLog :=
        if hasCallback then st.callbackLog ++ [r.buf] else st.callbackLog }
  else
    st

/-! ## Helper lemmas -/

/-- `strFind` only ever returns an index of an existing character, so the
source's `pos == ip_port.length()` validation test can never succeed: the
guard meant to reject a trailing separator is unreachable. -/
theorem strFind_lt_length (c : Char) :
    ∀ (l : List Char) (pos : Nat), strFind c l = some pos → pos < l.length := by
  intro l
  induction l with
  | nil => intro pos h; simp [strFind] at h
  | cons a rest ih =>
    intro pos h
    simp only [strFind] at h
    by_cases hac : a = c
    · simp only [List.length_cons]
      simp [hac] at h
      omega
    · simp only [List.length_cons]
      simp [hac] at h
      obtain ⟨q, hq, hpos⟩ := h
      have hlt := ih q hq
      omega

/-- After any `Close` the open flag is cleared. -/
theorem Close_result_closed (s : SerialState) :
    (Close s).2.1.is_cmd_opened = false := by
  unfold Close
  by_cases h : s.is_cmd_opened = false
  · simp [h]
  · simp [h]

/-! ## Claims -/

/-- C1 (code evaluation at the failing inputs): the claim says every
malformed network descriptor is rejected with MalformedAddress before any
OS resource is allocated, but the code only rejects a missing separator.
On `"tcp://127.0.0.1:"` (trailing separator, empty port) and on
`"tcp://127.0.0.1:x"` (non-numeric port) validation passes, a socket is
created, and then `std::stoi` throws an uncaught exception; on
`"tcp://:2000"` (empty host) validation also passes and a socket is
created (the `inet_pton` failure is ignored and the branch proceeds to
`connect`).  Only the missing-separator case `"tcp://127.0.0.1"` is
rejected with no resource touched.  The intended guard for the trailing
separator, `pos == ip_port.length()`, is unreachable (see
`strFind_lt_length`). -/
theorem C1_open_malformed_bug :
    OpenNet ("tcp://127.0.0.1:".toList) true = some (.stoiThrow, [.socketCreate]) ∧
    OpenNet ("tcp://127.0.0.1:x".toList) true = some (.stoiThrow, [.socketCreate]) ∧
    OpenNet ("tcp://:2000".toList) true =
      some (.opened, [.socketCreate, .connectCall]) ∧
    OpenNet ("tcp://127.0.0.1".toList) true = some (.malformed, []) :=
  ⟨by decide, by decide, by decide, by decide⟩

/-- C2 (code evaluation at the failing input): when `connect` fails, Open
returns failure but the event trace of the attempt contains the socket
creation and no `close` — the created stream socket is not released before
returning, contrary to the claim (and contrary to the serial branch of the
same function, which does close the handle on its error paths). -/
theorem C2_connect_leak :
    ∃ tr, OpenNet ("tcp://127.0.0.1:2000".toList) false =
        some (.connectFailed, tr) ∧
      IoEvent.socketCreate ∈ tr ∧ IoEvent.closeHandle ∉ tr :=
  ⟨[IoEvent.socketCreate, IoEvent.connectCall], by decide, by decide, by decide⟩

/-- C3 (counterexample): the claim says a wait error other than an
interrupting signal is treated as a failure, but when `pselect` fails with
a non-EINTR errno the function does not return; it falls through to the
`FD_ISSET` test on the unspecified set, and when the bit is still set (as
it is on Linux, which leaves the sets unmodified on error) and the read
succeeds, the call returns true — a success, not a failure. -/
theorem C3_select_error_counterexample :
    (ReadFromIo true (ReadOracle.mk (.perr false) true (some [1, 2, 3])) 0).ok =
      true := by
  decide

/-- C3 (amended): for every Read call on an open transport, the wait bound
is the fixed 100 ms; on an interrupting signal the call returns failure
with no side effects (out-parameter unchanged, no read attempted); on a
timeout with zero ready handles the call returns failure with the
out-parameter unchanged and no read attempted; on any other wait error the
call does not return immediately but proceeds to the descriptor-set test
(whose contents are unspecified after a failed wait): if the set no longer
marks the handle the call fails with no read attempted, and otherwise
exactly one read is attempted whose outcome alone decides success. -/
theorem C3_read_wait_amended (b : Bool) (r : Option (List Nat)) (k : Nat) :
    readTimeoutNs = 100 * 1000000 ∧
    ReadFromIo true (ReadOracle.mk (.perr true) b r) k =
      ReadOutcome.mk false k [] [.pselectWait] ∧
    ReadFromIo true (ReadOracle.mk .timeout b r) k =
      ReadOutcome.mk false k [] [.pselectWait] ∧
    ReadFromIo true (ReadOracle.mk (.perr false) false r) k =
      ReadOutcome.mk false k [] [.pselectWait] ∧
    (ReadFromIo true (ReadOracle.mk (.perr false) true r) k).events =
      [.pselectWait, .readCall] ∧
    ((ReadFromIo true (ReadOracle.mk (.perr false) true r) k).ok = true ↔
      r ≠ none) := by
  refine ⟨rfl, ?_, ?_, ?_, ?_, ?_⟩
  · simp [ReadFromIo, IsOpened]
  · simp [ReadFromIo, IsOpened]
  · simp [ReadFromIo, IsOpened]
  · cases r <;> simp [ReadFromIo, IsOpened]
  · cases r <;> simp [ReadFromIo, IsOpened]

/-- C4: on an open transport whose handle becomes readable within the wait,
exactly one underlying read is performed (the event trace is one wait then
one read); on a non-error read the call returns ok with the out-parameter
set to the number of bytes obtained, which were placed in the caller's
buffer; the call fails only when the read itself errors, and then the
out-parameter keeps its prior value. -/
theorem C4_read_ready (b : Bool) (k : Nat) :
    (∀ bs : List Nat, ReadFromIo true (ReadOracle.mk .ready b (some bs)) k =
      ReadOutcome.mk true bs.length bs [.pselectWait, .readCall]) ∧
    ReadFromIo true (ReadOracle.mk .ready b none) k =
      ReadOutcome.mk false k [] [.pselectWait, .readCall] := by
  refine ⟨fun bs => ?_, ?_⟩ <;> simp [ReadFromIo, IsOpened]

/-- C5: a Write on a closed transport fails with no underlying write and
an unchanged out-parameter; on an open transport exactly one underlying
write is performed, a write error yields failure with the out-parameter
unchanged, and otherwise the exact count the OS accepted (any `n`,
possibly less than the requested length) is reported — there is no retry,
the trace holds a single write event in every open case. -/
theorem C5_write_contract (k : Nat) :
    (∀ r : Option Nat, WriteToIo false r k = (false, k, [])) ∧
    (∀ n : Nat, WriteToIo true (some n) k = (true, n, [IoEvent.writeCall])) ∧
    WriteToIo true none k = (false, k, [IoEvent.writeCall]) := by
  refine ⟨fun r => ?_, fun n => ?_, ?_⟩ <;> simp [WriteToIo, IsOpened]

/-- C6: Close always returns success; on an already-closed transport it
returns success immediately with the state unchanged and no OS event; and
after any Close a second Close returns success with the state unchanged
and no OS event. -/
theorem C6_close_idempotent (s : SerialState) :
    (Close s).1 = true ∧
    (s.is_cmd_opened = false → Close s = (true, s, [])) ∧
    Close (Close s).2.1 = (true, (Close s).2.1, []) := by
  refine ⟨?_, ?_, ?_⟩
  · by_cases h : s.is_cmd_opened = false <;> simp [Close, h]
  · intro h
    simp [Close, h]
  · have h := Close_result_closed s
    generalize (Close s).2.1 = t at h ⊢
    simp [Close, h]

/-- C6 witness: a concrete closed state (with a stale handle value, as left
behind by a failed network Open) on which Close returns success at once
with no side effect. -/
theorem C6_close_witness :
    (SerialState.mk 5 false false false 0).is_cmd_opened = false ∧
    Close (SerialState.mk 5 false false false 0) =
      (true, SerialState.mk 5 false false false 0, []) :=
  ⟨by decide,
   (C6_close_idempotent (SerialState.mk 5 false false false 0)).2.1 (by decide)⟩

/-- C7: in one receiver-loop iteration, when the bounded-wait read returns
success with a non-zero count the byte counter grows by exactly that count
and the callback log gains, within the same iteration, one entry holding
the bytes just read — only when a callback is registered; the bytes are
counted either way.  When the read failed or returned a zero count the
iteration changes nothing.  The count handed over always equals the length
of the byte buffer handed over. -/
theorem C7_rx_step (hasCb isOp : Bool) (o : ReadOracle) (st : RxState) :
    ((ReadFromIo isOp o 0).ok = true → (ReadFromIo isOp o 0).rxLen ≠ 0 →
      RxIteration hasCb isOp o st =
        RxState.mk (st.rx_count + (ReadFromIo isOp o 0).rxLen)
          (if hasCb then st.callbackLog ++ [(ReadFromIo isOp o 0).buf]
           else st.callbackLog)) ∧
    ((ReadFromIo isOp o 0).ok = false ∨ (ReadFromIo isOp o 0).rxLen = 0 →
      RxIteration hasCb isOp o st = st) ∧
    (ReadFromIo isOp o 0).rxLen = (ReadFromIo isOp o 0).buf.length := by
  refine ⟨?_, ?_, ?_⟩
  · intro h1 h2
    simp only [RxIteration]
    rw [if_pos (And.intro h1 h2)]
  · intro h
    simp only [RxIteration]
    rw [if_neg]
    rintro ⟨hok, hlen⟩
    rcases h with h | h
    · rw [h] at hok
      simp at hok
    · exact hlen h
  · rcases o with ⟨psel, fe, rr⟩
    cases isOp
    · simp [ReadFromIo, IsOpened]
    · cases psel with
      | perr e => cases e <;> cases fe <;> cases rr <;>
          simp [ReadFromIo, IsOpened]
      | timeout => simp [ReadFromIo, IsOpened]
      | ready => cases rr <;> simp [ReadFromIo, IsOpened]

/-- C7 witness: a ready read of the two bytes 7, 8 onto counter 5 yields
counter 7 and one callback entry; a timed-out read leaves the state
untouched. -/
theorem C7_rx_step_witness :
    RxIteration true true (ReadOracle.mk .ready true (some [7, 8]))
      (RxState.mk 5 []) = RxState.mk 7 [[7, 8]] ∧
    RxIteration true true (ReadOracle.mk .timeout true none)
      (RxState.mk 5 []) = RxState.mk 5 [] :=
  ⟨by
    have h := (C7_rx_step true true (ReadOracle.mk .ready true (some [7, 8]))
        (RxState.mk 5 [])).1 (by decide) (by decide)
    simpa using h,
   (C7_rx_step true true (ReadOracle.mk .timeout true none)
      (RxState.mk 5 [])).2.1 (by decide)⟩

/-- C8: a Read call on an unopened transport fails immediately: the return
value is false, the out-parameter keeps its prior value, no bytes are
delivered, and the event trace is empty — no bounded wait is entered and no
underlying read is performed. -/
theorem C8_read_not_open (o : ReadOracle) (k : Nat) :
    ReadFromIo false o k = ReadOutcome.mk false k [] [] := by
  simp [ReadFromIo, IsOpened]

/-- C10: on an open, readable transport whose read returns zero bytes
(end of stream), Read returns ok with the out-parameter set to 0; the
receiver-loop iteration then behaves exactly like a timed-out (idle) one:
the state — byte counter and callback log — is unchanged in both cases, so
end of stream and timeout are indistinguishable at the callback
interface. -/
theorem C10_eof_idle (b hasCb : Bool) (k : Nat) (st : RxState) :
    ReadFromIo true (ReadOracle.mk .ready b (some [])) k =
      ReadOutcome.mk true 0 [] [.pselectWait, .readCall] ∧
    RxIteration hasCb true (ReadOracle.mk .ready b (some [])) st = st ∧
    RxIteration hasCb true (ReadOracle.mk .timeout b none) st = st := by
  refine ⟨?_, ?_, ?_⟩
  · simp [ReadFromIo, IsOpened]
  · simp [RxIteration, ReadFromIo, IsOpened]
  · simp [RxIteration, ReadFromIo, IsOpened]

end LdLidar
